import Mathlib

/-!
Verification of the per-frame proctoring analysis core of the
AI-Powered Smart Campus Management System back end
(src/ai-module/main.py, FastAPI service).

The external vision capabilities (MediaPipe face detector, MediaPipe
FaceMesh, the YOLO object-detection model, and the OpenCV pose solve
inside estimate_head_pose) are opaque numeric providers; a frame is
therefore represented by the outputs those capabilities produce for it:
the detected face count, the optional mesh outcome (the head pose
returned by estimate_head_pose on its landmarks together with the
boolean returned by detect_eyes_closed), and the YOLO detection list as
a function of the confidence threshold that is forwarded to the model.
Python floats are modelled by rationals; the decimal formatting used in
detail strings is modelled by rounding to the nearest integer (no claim
depends on the formatted digits).
-/

/-- One YOLO detection box: COCO class id, confidence, xyxy bbox. -/
structure Detection where
  cls : Nat
  conf : ℚ
  bbox : List ℚ
deriving DecidableEq, Repr

/-- DetectedObject pydantic model: label, confidence, bbox (main.py lines 505-508). -/
structure DetectedObject where
  label : String
  confidence : ℚ
  bbox : List ℚ
deriving DecidableEq, Repr

/-- One violation dict appended to the violations list: \x7btype, details, weight\x7d. -/
structure Violation where
  vtype : String
  details : String
  weight : Int
deriving DecidableEq, Repr

/-- Head pose dict returned by estimate_head_pose: yaw, pitch, roll in degrees. -/
structure HeadPose where
  yaw : ℚ
  pitch : ℚ
  roll : ℚ
deriving DecidableEq, Repr

/-- Outcome of a successful FaceMesh pass on a one-face frame: the pose that
estimate_head_pose computes from its landmarks and the boolean that
detect_eyes_closed computes from them. -/
structure MeshOut where
  pose : HeadPose
  eyesClosed : Bool
deriving DecidableEq, Repr

/-- Per-frame outputs of the external vision capabilities: face detector count,
FaceMesh outcome (none when mesh_results.multi_face_landmarks is empty), and
the YOLO detections as a function of the confidence threshold passed to the
model. -/
structure FrameInput where
  faceCount : Nat
  mesh : Option MeshOut
  yolo : ℚ → List Detection

/-- FullProctorResponse pydantic model (main.py lines 749-761). -/
structure FullProctorResponse where
  face_count : Nat
  head_pose : Option HeadPose
  looking_away : Bool
  looking_direction : String
  eyes_closed : Bool
  suspicious_objects : List DetectedObject
  person_count : Nat
  violations : List Violation
  total_violation_weight : Int
deriving DecidableEq, Repr

/-- SUSPICIOUS_OBJECTS dict (main.py lines 93-100): COCO class id to label. -/
def SUSPICIOUS_OBJECTS : Nat → Option String := fun c =>
  if c = 67 then some "cell phone"
  else if c = 73 then some "book"
  else if c = 63 then some "laptop"
  else if c = 65 then some "remote"
  else if c = 74 then some "clock"
  else if c = 0 then some "person"
  else none

/-- Model of the Python format spec .0f on a rational: round to nearest integer. -/
def fmtRound (q : ℚ) : String := toString (round q)

/-- Model of the Python format spec .0percent on a rational confidence. -/
def fmtPercent (q : ℚ) : String := toString (round (q * 100)) ++ "%"

/-- Model of Python round(conf, 3). -/
def round3 (q : ℚ) : ℚ := (round (q * 1000) : ℚ) / 1000

/-- Direction classification of main.py lines 796-810: yaw branch first
(left / right), then an independent pitch branch (down / up) that overwrites
the yaw result when it fires; otherwise the yaw result stands. -/
def classifyDirection (yaw pitch : ℚ) : String × Bool :=
  let s1 : String × Bool :=
    if yaw < -15 then ("left", true)
    else if yaw > 15 then ("right", true)
    else ("center", false)
  if pitch < -15 then ("down", true)
  else if pitch > 20 then ("up", true)
  else s1

/-- Weight of a CHEATING_OBJECT event (main.py line 846). -/
def cheatWeight (label : String) : Int := if label = "cell phone" then 3 else 2

/-- The CHEATING_OBJECT violation dict appended at main.py lines 847-851. -/
def cheatEvent (label : String) (conf : ℚ) : Violation :=
  ⟨"CHEATING_OBJECT", "Detected: " ++ label ++ " (" ++ fmtPercent conf ++ ")",
    cheatWeight label⟩

/-- The YOLO box loop of main.py lines 831-851: class 0 increments
person_count; otherwise a class in SUSPICIOUS_OBJECTS appends a
DetectedObject and a CHEATING_OBJECT violation; all other classes are
ignored. Returns (suspicious, person_count, violations) in loop order. -/
def processDetections : List Detection → List DetectedObject × Nat × List Violation
  | [] => ([], 0, [])
  | d :: ds =>
    let rest := processDetections ds
    if d.cls = 0 then (rest.1, rest.2.1 + 1, rest.2.2)
    else
      match SUSPICIOUS_OBJECTS d.cls with
      | some label =>
          (⟨label, round3 d.conf, d.bbox⟩ :: rest.1, rest.2.1,
            cheatEvent label d.conf :: rest.2.2)
      | none => rest

/-- Face / pose / eye stage of _sync_full_proctor_analyze (main.py lines
779-817): returns (head_pose, looking_away, looking_direction, eyes_closed,
violations accumulated so far). -/
def faceStage (inp : FrameInput) :
    Option HeadPose × Bool × String × Bool × List Violation :=
  if inp.faceCount = 0 then
    (none, false, "none", false, [⟨"NO_FACE", "No face detected", 1⟩])
  else if 1 < inp.faceCount then
    (none, false, "none", false,
      [⟨"MULTIPLE_FACES", toString inp.faceCount ++ " faces detected", 2⟩])
  else
    match inp.mesh with
    | none => (none, false, "none", false, [])
    | some m =>
      let dl := classifyDirection m.pose.yaw m.pose.pitch
      let vs : List Violation :=
        if dl.2 then
          [⟨"LOOKING_AWAY",
            "Looking " ++ dl.1 ++ " (yaw=" ++ fmtRound m.pose.yaw ++
              ", pitch=" ++ fmtRound m.pose.pitch ++ ")", 1⟩]
        else []
      (some m.pose, dl.2, dl.1, m.eyesClosed, vs)

/-- Embedding of _sync_full_proctor_analyze (main.py lines 764-865): the face
stage always runs, the YOLO stage runs only when run_object_detection is
true, the violation lists are concatenated in program order, and
total_violation_weight is the sum of the weights of the violations list. -/
def sync_full_proctor_analyze (inp : FrameInput) (run_object_detection : Bool)
    (confidence_threshold : ℚ) : FullProctorResponse :=
  let fs := faceStage inp
  let obj :=
    if run_object_detection then processDetections (inp.yolo confidence_threshold)
    else ([], 0, [])
  let violations := fs.2.2.2.2 ++ obj.2.2
  { face_count := inp.faceCount
    head_pose := fs.1
    looking_away := fs.2.1
    looking_direction := fs.2.2.1
    eyes_closed := fs.2.2.2.1
    suspicious_objects := obj.1
    person_count := obj.2.1
    violations := violations
    total_violation_weight := (violations.map Violation.weight).sum }

/-- Pydantic validation of FullProctorRequest (main.py lines 743-746): image
is the only required field, run_object_detection defaults to true,
confidence_threshold defaults to 0.6; no range constraint exists on the
threshold. Returns none exactly when the required image field is missing. -/
def FullProctorRequest.parse (image : Option String) (run_od : Option Bool)
    (thr : Option ℚ) : Option (String × Bool × ℚ) :=
  match image with
  | none => none
  | some img => some (img, run_od.getD true, thr.getD (6/10))

/-- Inner ear helper of detect_eyes_closed (main.py lines 635-642): the
eye-aspect-ratio (v1 + v2) / (2 h) with the h > 0 guard, where v1, v2 are
the two vertical landmark distances and h the horizontal one. -/
def ear (v1 v2 h : ℚ) : ℚ := if 0 < h then (v1 + v2) / (2 * h) else 0

/-- Embedding of detect_eyes_closed (main.py lines 633-652) over the six
landmark distances of the two eyes: average the two per-eye ratios and
compare strictly against the 0.18 threshold. -/
def detect_eyes_closed (lv1 lv2 lh rv1 rv2 rh : ℚ) : Bool :=
  decide ((ear lv1 lv2 lh + ear rv1 rv2 rh) / 2 < 18/100)

/-- A detection qualifies for a CHEATING_OBJECT event exactly when its class
is not the person class 0 and is a key of SUSPICIOUS_OBJECTS. -/
def cheatQualifies (d : Detection) : Bool :=
  !(d.cls == 0) && (SUSPICIOUS_OBJECTS d.cls).isSome

theorem processDetections_violations (ds : List Detection) :
    (processDetections ds).2.2 =
      (ds.filter cheatQualifies).map
        (fun d => cheatEvent ((SUSPICIOUS_OBJECTS d.cls).getD "") d.conf) := by
  induction ds with
  | nil => rfl
  | cons d ds ih =>
    by_cases h0 : d.cls = 0
    · simp [processDetections, h0, cheatQualifies, List.filter_cons, ih]
    · cases hs : SUSPICIOUS_OBJECTS d.cls with
      | none =>
        simp [processDetections, h0, cheatQualifies, hs, List.filter_cons, ih]
      | some label =>
        simp [processDetections, h0, cheatQualifies, hs, List.filter_cons, ih]

theorem processDetections_personCount (ds : List Detection) :
    (processDetections ds).2.1 = ds.countP (fun d => d.cls == 0) := by
  induction ds with
  | nil => rfl
  | cons d ds ih =>
    by_cases h0 : d.cls = 0
    · simp [processDetections, h0, List.countP_cons, ih]
    · cases hs : SUSPICIOUS_OBJECTS d.cls with
      | none => simp [processDetections, h0, hs, List.countP_cons, ih]
      | some label => simp [processDetections, h0, hs, List.countP_cons, ih]

theorem processDetections_vtype (ds : List Detection) (v : Violation)
    (hv : v ∈ (processDetections ds).2.2) : v.vtype = "CHEATING_OBJECT" := by
  rw [processDetections_violations] at hv
  rw [List.mem_map] at hv
  obtain ⟨d, _, rfl⟩ := hv
  rfl

theorem faceStage_vtype (inp : FrameInput) (v : Violation)
    (hv : v ∈ (faceStage inp).2.2.2.2) :
    v.vtype = "NO_FACE" ∨ v.vtype = "MULTIPLE_FACES" ∨ v.vtype = "LOOKING_AWAY" := by
  rcases inp with ⟨fc, mesh, yolo⟩
  by_cases h0 : fc = 0
  · simp [faceStage, h0] at hv
    subst hv; left; rfl
  · by_cases h1 : 1 < fc
    · simp [faceStage, h0, h1] at hv
      subst hv; right; left; rfl
    · rcases mesh with _ | m
      · simp [faceStage, h0, h1] at hv
      · by_cases hla : (classifyDirection m.pose.yaw m.pose.pitch).2 = true
        · simp [faceStage, h0, h1, hla] at hv
          subst hv; right; right; rfl
        · simp [faceStage, h0, h1, hla] at hv

/-- Violations of the combined analysis split into the face-stage part and,
when object detection ran, the YOLO-loop part. -/
theorem analyze_violations_eq (inp : FrameInput) (rod : Bool) (thr : ℚ) :
    (sync_full_proctor_analyze inp rod thr).violations =
      (faceStage inp).2.2.2.2 ++
        (if rod then processDetections (inp.yolo thr) else ([], 0, [])).2.2 := rfl

/-- C2: for every result produced by the combined analysis, the
total_violation_weight field equals the sum of the weight fields of the
events in that result's violations list. -/
theorem C2_total_weight_is_sum (inp : FrameInput) (rod : Bool) (thr : ℚ) :
    (sync_full_proctor_analyze inp rod thr).total_violation_weight =
      ((sync_full_proctor_analyze inp rod thr).violations.map Violation.weight).sum := rfl

/-- C9: with run_object_detection set to false, regardless of the frame
content, the suspicious_objects list is empty, person_count is 0, and no
CHEATING_OBJECT event appears in the violations list. -/
theorem C9_object_detection_off (inp : FrameInput) (thr : ℚ) :
    (sync_full_proctor_analyze inp false thr).suspicious_objects = [] ∧
    (sync_full_proctor_analyze inp false thr).person_count = 0 ∧
    ((sync_full_proctor_analyze inp false thr).violations.all
      (fun v => !(v.vtype == "CHEATING_OBJECT"))) = true := by
  refine ⟨rfl, rfl, ?_⟩
  rw [List.all_eq_true]
  intro v hv
  rw [analyze_violations_eq, List.mem_append] at hv
  rcases hv with hv | hv
  · rcases faceStage_vtype inp v hv with h | h | h <;> simp [h]
  · simp at hv

/-- C10: a class-0 (person) detection increments person_count, is never
appended to suspicious_objects and never produces a CHEATING_OBJECT event,
even though class 0 is a key of the SUSPICIOUS_OBJECTS mapping; and the
response person_count counts exactly the class-0 detections. -/
theorem C10_person_class_excluded (ds : List Detection) (c : ℚ) (b : List ℚ) :
    SUSPICIOUS_OBJECTS 0 = some "person" ∧
    processDetections ({ cls := 0, conf := c, bbox := b } :: ds) =
      ((processDetections ds).1, (processDetections ds).2.1 + 1,
        (processDetections ds).2.2) ∧
    (processDetections ds).2.1 = ds.countP (fun d => d.cls == 0) ∧
    ∀ (inp : FrameInput) (thr : ℚ),
      (sync_full_proctor_analyze inp true thr).person_count =
        (inp.yolo thr).countP (fun d => d.cls == 0) := by
  refine ⟨rfl, by simp [processDetections], processDetections_personCount ds, ?_⟩
  intro inp thr
  exact processDetections_personCount (inp.yolo thr)

/-- C4 counterexample: a frame with exactly one detected face but no FaceMesh
landmarks has face_count 1 and an absent head_pose, refuting the claim that
head_pose is present whenever face_count equals 1. -/
theorem C4_counterexample :
    (sync_full_proctor_analyze ⟨1, none, fun _ => []⟩ false 0).face_count = 1 ∧
    (sync_full_proctor_analyze ⟨1, none, fun _ => []⟩ false 0).head_pose = none :=
  ⟨rfl, rfl⟩

/-- C4 (amended): head_pose is absent whenever face_count differs from 1, and
when face_count equals 1 it is present exactly when the FaceMesh landmark
pass succeeded, in which case it is the pose estimated from those landmarks. -/
theorem C4_head_pose_iff_one_face_and_mesh (inp : FrameInput) (rod : Bool) (thr : ℚ) :
    (sync_full_proctor_analyze inp rod thr).head_pose =
      (if inp.faceCount = 1 then Option.map MeshOut.pose inp.mesh else none) := by
  rcases inp with ⟨fc, mesh, yolo⟩
  rcases mesh with _ | m <;> rcases fc with _ | _ | n <;>
    simp [sync_full_proctor_analyze, faceStage]

/-- C5 counterexample: a request whose confidence_threshold is 1.5 (outside
the interval from 0 to 1) passes request validation, and the analysis runs
object detection with that threshold, so no ConfigError rejection happens
before inference. -/
theorem C5_counterexample :
    FullProctorRequest.parse (some "frame") none (some (3/2)) =
      some ("frame", true, 3/2) ∧
    (sync_full_proctor_analyze ⟨1, none, fun _ => [⟨67, 9/10, [0, 0, 1, 1]⟩]⟩ true
      (3/2)).suspicious_objects ≠ [] := by
  constructor
  · rfl
  · with_unfolding_all decide

/-- C5 (amended): request validation imposes no range constraint on
confidence_threshold: any rational value is accepted as given, and the
combined analysis forwards exactly that value to the object detector. -/
theorem C5_threshold_never_rejected (img : String) (rod : Bool) (thr : ℚ)
    (inp : FrameInput) :
    FullProctorRequest.parse (some img) (some rod) (some thr) = some (img, rod, thr) ∧
    (sync_full_proctor_analyze inp true thr).suspicious_objects =
      (processDetections (inp.yolo thr)).1 :=
  ⟨rfl, rfl⟩

/-- C6: direction classification evaluates yaw before pitch and lets the
pitch branch overwrite a yaw-derived direction: a single-face frame whose
estimated pose has yaw 0 and pitch 25 yields direction up with
looking_away true, one with yaw -20 and pitch 0 yields direction left with
looking_away true, and pitch 25 forces direction up for every yaw value. -/
theorem C6_direction_order (r : ℚ) (ec rod : Bool) (yolo : ℚ → List Detection)
    (thr : ℚ) :
    (sync_full_proctor_analyze ⟨1, some ⟨⟨0, 25, r⟩, ec⟩, yolo⟩ rod
        thr).looking_direction = "up" ∧
    (sync_full_proctor_analyze ⟨1, some ⟨⟨0, 25, r⟩, ec⟩, yolo⟩ rod
        thr).looking_away = true ∧
    (sync_full_proctor_analyze ⟨1, some ⟨⟨-20, 0, r⟩, ec⟩, yolo⟩ rod
        thr).looking_direction = "left" ∧
    (sync_full_proctor_analyze ⟨1, some ⟨⟨-20, 0, r⟩, ec⟩, yolo⟩ rod
        thr).looking_away = true ∧
    ∀ yaw : ℚ, classifyDirection yaw 25 = ("up", true) := by
  refine ⟨?_, ?_, ?_, ?_, ?_⟩ <;>
    norm_num [sync_full_proctor_analyze, faceStage, classifyDirection]

/-- Concrete zero-face frame whose YOLO output holds one cell-phone box. -/
def cexFrameC1 : FrameInput := ⟨0, none, fun _ => [⟨67, 9/10, [0, 0, 1, 1]⟩]⟩

/-- C1 counterexample: with zero detected faces but run_object_detection set
to true and a cell-phone detection in the frame, the violations list is not
exactly the single NO_FACE event, refuting independence from the
run_object_detection setting. -/
theorem C1_counterexample :
    (sync_full_proctor_analyze cexFrameC1 true (6/10)).violations ≠
      [⟨"NO_FACE", "No face detected", 1⟩] := by
  with_unfolding_all decide

/-- C1 (amended): for every zero-face frame head_pose is absent, with
run_object_detection false the violations list is exactly the single
NO_FACE event of weight 1, and in general it is that NO_FACE event followed
only by CHEATING_OBJECT events contributed by object detection. -/
theorem C1_zero_faces (inp : FrameInput) (rod : Bool) (thr : ℚ)
    (h0 : inp.faceCount = 0) :
    (sync_full_proctor_analyze inp rod thr).head_pose = none ∧
    (sync_full_proctor_analyze inp false thr).violations =
      [⟨"NO_FACE", "No face detected", 1⟩] ∧
    ∃ rest,
      (sync_full_proctor_analyze inp rod thr).violations =
        ⟨"NO_FACE", "No face detected", 1⟩ :: rest ∧
      rest.all (fun v => v.vtype == "CHEATING_OBJECT") = true := by
  refine ⟨?_, ?_, (if rod then processDetections (inp.yolo thr) else ([], 0, [])).2.2,
    ?_, ?_⟩
  · simp [sync_full_proctor_analyze, faceStage, h0]
  · simp [sync_full_proctor_analyze, faceStage, h0]
  · simp [sync_full_proctor_analyze, faceStage, h0]
  · cases rod
    · simp
    · rw [if_pos rfl, List.all_eq_true]
      intro v hv
      have := processDetections_vtype (inp.yolo thr) v hv
      simp [this]

/-- C1 witness: the amended statement instantiated at the concrete zero-face
frame with object detection on. -/
theorem C1_zero_faces_witness :
    cexFrameC1.faceCount = 0 ∧
    ((sync_full_proctor_analyze cexFrameC1 true (6/10)).head_pose = none ∧
      (sync_full_proctor_analyze cexFrameC1 false (6/10)).violations =
        [⟨"NO_FACE", "No face detected", 1⟩] ∧
      ∃ rest,
        (sync_full_proctor_analyze cexFrameC1 true (6/10)).violations =
          ⟨"NO_FACE", "No face detected", 1⟩ :: rest ∧
        rest.all (fun v => v.vtype == "CHEATING_OBJECT") = true) :=
  ⟨rfl, C1_zero_faces cexFrameC1 true (6/10) rfl⟩

/-- Concrete one-face frame whose mesh yields a centered pose with closed
eyes, and no YOLO detections. -/
def cexFrameC3 : FrameInput := ⟨1, some ⟨⟨0, 0, 0⟩, true⟩, fun _ => []⟩

/-- C3 counterexample: a one-face frame with eyes_closed true and
looking_away false produces an empty violations list, so no EYES_CLOSED
event of weight 1 is emitted by the combined analysis. -/
theorem C3_counterexample :
    (sync_full_proctor_analyze cexFrameC3 false 0).face_count = 1 ∧
    (sync_full_proctor_analyze cexFrameC3 false 0).eyes_closed = true ∧
    (sync_full_proctor_analyze cexFrameC3 false 0).looking_away = false ∧
    (sync_full_proctor_analyze cexFrameC3 false 0).violations = [] := by
  with_unfolding_all decide

/-- C3 (amended): the combined analysis reports eye closure only through the
eyes_closed boolean field and never emits an EYES_CLOSED violation event;
consequently LOOKING_AWAY and EYES_CLOSED events never both appear in one
result. -/
theorem C3_no_eyes_closed_event (inp : FrameInput) (rod : Bool) (thr : ℚ) :
    ((sync_full_proctor_analyze inp rod thr).violations.all
      (fun v => !(v.vtype == "EYES_CLOSED"))) = true := by
  rw [List.all_eq_true]
  intro v hv
  rw [analyze_violations_eq, List.mem_append] at hv
  rcases hv with hv | hv
  · rcases faceStage_vtype inp v hv with h | h | h <;> simp [h]
  · cases rod
    · simp at hv
    · rw [if_pos rfl] at hv
      have := processDetections_vtype (inp.yolo thr) v hv
      simp [this]

/-- C7: with object detection opted in, the CHEATING_OBJECT events of the
result are exactly one independent event per detection whose class is a
non-person key of SUSPICIOUS_OBJECTS, in detection order and without any
merging, and each such event weighs 3 when its label is cell phone and 2
for any other disallowed label. -/
theorem C7_cheating_object_events (inp : FrameInput) (thr : ℚ) :
    ((sync_full_proctor_analyze inp true thr).violations.filter
        (fun v => v.vtype == "CHEATING_OBJECT")) =
      ((inp.yolo thr).filter cheatQualifies).map
        (fun d => cheatEvent ((SUSPICIOUS_OBJECTS d.cls).getD "") d.conf) ∧
    ∀ (label : String) (conf : ℚ),
      (cheatEvent label conf).weight = if label = "cell phone" then 3 else 2 := by
  constructor
  · rw [analyze_violations_eq, if_pos rfl, List.filter_append]
    have hface : ((faceStage inp).2.2.2.2.filter
        (fun v => v.vtype == "CHEATING_OBJECT")) = [] := by
      rw [List.filter_eq_nil_iff]
      intro v hv
      rcases faceStage_vtype inp v hv with h | h | h <;> simp [h]
    have hobj : (((processDetections (inp.yolo thr)).2.2).filter
        (fun v => v.vtype == "CHEATING_OBJECT")) =
        (processDetections (inp.yolo thr)).2.2 := by
      rw [List.filter_eq_self]
      intro v hv
      simp [processDetections_vtype (inp.yolo thr) v hv]
    rw [hface, hobj, List.nil_append, processDetections_violations]
  · intro label conf
    rfl

/-- C8: eye-closure classification compares the average eye-aspect-ratio
strictly against 0.18: an average of exactly 0.18 yields eyes_closed false,
and any average strictly below 0.18 yields eyes_closed true. -/
theorem C8_ear_strict_threshold (lv1 lv2 lh rv1 rv2 rh : ℚ) :
    ((ear lv1 lv2 lh + ear rv1 rv2 rh) / 2 = 18/100 →
      detect_eyes_closed lv1 lv2 lh rv1 rv2 rh = false) ∧
    ((ear lv1 lv2 lh + ear rv1 rv2 rh) / 2 < 18/100 →
      detect_eyes_closed lv1 lv2 lh rv1 rv2 rh = true) := by
  constructor
  · intro h
    unfold detect_eyes_closed
    rw [decide_eq_false_iff_not, h]
    norm_num
  · intro h
    unfold detect_eyes_closed
    rw [decide_eq_true_eq]
    exact h

/-- C8 witness: both halves of the threshold statement instantiated at
landmark distances giving per-eye ratios of exactly 0.18 and 0.17. -/
theorem C8_ear_strict_threshold_witness :
    detect_eyes_closed (18/100) (18/100) 1 (18/100) (18/100) 1 = false ∧
    detect_eyes_closed (17/100) (17/100) 1 (17/100) (17/100) 1 = true :=
  ⟨(C8_ear_strict_threshold (18/100) (18/100) 1 (18/100) (18/100) 1).1
      (by norm_num [ear]),
   (C8_ear_strict_threshold (17/100) (17/100) 1 (17/100) (17/100) 1).2
      (by norm_num [ear])⟩
